import Mathlib

/-!
Shallow embedding of the matching/routing core of Saturnus_Magister:
`src/ai/job_matcher.py`, `src/services/task_router.py`,
`src/services/email_processor.py`, `src/services/job_linker.py`,
over the data model of `src/db/models.py`.

Scores are modelled as rationals (`ℚ`); timestamps as integers (whole
days); Python string truthiness (`""` is falsy) is modelled explicitly.
-/

namespace Saturnus

/-- `src/db/models.py` `EmailCategory`: closed enum of classification
categories, inbound and outbound. -/
inductive EmailCategory where
  | interview_invite
  | assignment
  | rejection
  | offer
  | info
  | follow_up_needed
  | unknown
  | sent_application
  | sent_availability
  | sent_follow_up
  | sent_documents
  deriving DecidableEq, Repr

/-- The `.value` string of each category member. -/
def EmailCategory.value : EmailCategory → String
  | .interview_invite => "interview_invite"
  | .assignment => "assignment"
  | .rejection => "rejection"
  | .offer => "offer"
  | .info => "info"
  | .follow_up_needed => "follow_up_needed"
  | .unknown => "unknown"
  | .sent_application => "sent_application"
  | .sent_availability => "sent_availability"
  | .sent_follow_up => "sent_follow_up"
  | .sent_documents => "sent_documents"

/-- `src/db/models.py` `Sentiment`. -/
inductive Sentiment where
  | positive
  | negative
  | neutral
  deriving DecidableEq, Repr

/-- `src/db/models.py` `EisenhowerQuadrant` (the model-side quadrant). -/
inductive Quadrant where
  | q1
  | q2
  | q3
  | q4
  deriving DecidableEq, Repr

/-- `src/db/models.py` `MatchMethod`. -/
inductive MatchMethod where
  | auto
  | manual
  | ai_disambiguation
  deriving DecidableEq, Repr

/-- The `extracted_data` dict of a classification, restricted to the keys
the routing core reads (`interview_date`, `deadline`, values are the raw
strings the classifier produced). -/
structure ExtractedData where
  interview_date : Option String
  deadline : Option String
  deriving DecidableEq, Repr

/-- `src/db/models.py` `EmailClassification`. -/
structure EmailClassification where
  category : EmailCategory
  sentiment : Sentiment
  confidence : ℚ
  reasoning : Option String
  extracted_data : Option ExtractedData
  deriving DecidableEq, Repr

/-- Python truthiness of an optional string: `None` and `""` are falsy. -/
def truthyS : Option String → Bool
  | none => false
  | some s => s ≠ ""

/-- Truthiness of `classification.extracted_data and
classification.extracted_data.get(key)` for the `interview_date` key, as
read at `task_router.py:62-63`. -/
def hasInterviewDate (c : EmailClassification) : Bool :=
  match c.extracted_data with
  | none => false
  | some d => truthyS d.interview_date

/-- Same for the `deadline` key (`task_router.py:72-73`). -/
def hasDeadline (c : EmailClassification) : Bool :=
  match c.extracted_data with
  | none => false
  | some d => truthyS d.deadline

/-- `src/db/models.py` `TaskRoutingDecision`. -/
structure TaskRoutingDecision where
  quadrant : Quadrant
  create_calendar_event : Bool
  enable_countdown : Bool
  priority : ℤ
  tags : List String
  reminders : List String
  reasoning : String
  deriving DecidableEq, Repr

/-- The category/effort if-chain of `TaskRouter._determine_routing`
(`task_router.py:49-98`), before the sentiment post-processing block. -/
def baseRouting (c : EmailClassification) (effort_level : Option String) :
    TaskRoutingDecision :=
  let dflt : TaskRoutingDecision :=
    { quadrant := .q3
      create_calendar_event := false
      enable_countdown := false
      priority := 3
      tags := [c.category.value]
      reminders := []
      reasoning := "" }
  if c.category = .interview_invite ∨ c.category = .offer then
    let cal := hasInterviewDate c
    { dflt with
      quadrant := .q1
      priority := 5
      create_calendar_event := cal
      enable_countdown := cal
      reminders := if cal then ["-1d", "-1h", "-15m"] else ["-1d"]
      reasoning := "Urgent and important - requires immediate attention" }
  else if c.category = .assignment then
    let cal := hasDeadline c
    { dflt with
      quadrant := .q2
      priority := 4
      create_calendar_event := cal
      enable_countdown := cal
      reminders := if cal then ["-1d", "-3h"] else []
      reasoning := "Important but not urgent - schedule properly" }
  else if c.category = .follow_up_needed then
    { dflt with
      quadrant := .q2
      priority := 3
      reminders := ["-1d"]
      reasoning := "Requires response but not urgent" }
  else if c.category = .rejection then
    if effort_level = some "high" then
      { dflt with
        quadrant := .q2
        priority := 2
        reasoning := "High effort rejection - worth reflecting on" }
    else
      { dflt with
        quadrant := .q4
        priority := 1
        reasoning := "Low effort rejection - just recording" }
  else if c.category = .info then
    { dflt with
      quadrant := .q3
      priority := 2
      reasoning := "Informational - quick acknowledgment may be needed" }
  else
    dflt

/-- The sentiment post-processing block of `_determine_routing`
(`task_router.py:100-108`): append a sentiment tag and bump priority for
positive sentiment, capped at 5. -/
def applySentiment (s : Sentiment) (d : TaskRoutingDecision) :
    TaskRoutingDecision :=
  match s with
  | .positive =>
      { d with
        tags := d.tags ++ ["positive"]
        priority := if d.priority < 5 then d.priority + 1 else d.priority }
  | .negative => { d with tags := d.tags ++ ["negative"] }
  | .neutral => { d with tags := d.tags ++ ["neutral"] }

/-- `TaskRouter._determine_routing` (`task_router.py:32-118`). -/
def determineRouting (c : EmailClassification) (effort_level : Option String) :
    TaskRoutingDecision :=
  applySentiment c.sentiment (baseRouting c effort_level)

/-! ## Job matcher (`src/ai/job_matcher.py`) -/

/-- Longest common subsequence length of two character lists.  Used to
model `rapidfuzz.fuzz.ratio`, whose value is the normalized InDel
similarity `100 * 2*lcs(a,b) / (len(a)+len(b))`. -/
def lcsLen : List Char → List Char → Nat
  | [], _ => 0
  | _ :: _, [] => 0
  | a :: as, b :: bs =>
    if a = b then lcsLen as bs + 1
    else max (lcsLen (a :: as) bs) (lcsLen as (b :: bs))
termination_by xs ys => xs.length + ys.length

/-- `rapidfuzz.fuzz.ratio` on already-lowercased character lists:
normalized InDel similarity scaled to 0–100. -/
def fuzzRatio (a b : List Char) : ℚ :=
  100 * (2 * (lcsLen a b : ℚ)) / ((a.length : ℚ) + (b.length : ℚ))

/-- Python `str.lower()` on the character list. -/
def lowerL (s : List Char) : List Char := s.map Char.toLower

/-- `JobMatcher._fuzzy_match_score` (`job_matcher.py:73-77`):
`0.0` when either string is falsy (empty), else
`fuzz.ratio(a.lower(), b.lower()) / 100.0`. -/
def fuzzyMatchScore (a b : String) : ℚ :=
  if a = "" ∨ b = "" then 0
  else fuzzRatio (lowerL a.toList) (lowerL b.toList) / 100

/-- Python `needle in hay` substring test on character lists. -/
def containsSub (needle : List Char) : List Char → Bool
  | [] => needle.isEmpty
  | c :: cs => needle.isPrefixOf (c :: cs) || containsSub needle cs

/-- Python `needle in hay` for strings. -/
def pyInB (needle hay : String) : Bool :=
  containsSub needle.toList hay.toList

/-- `JobMatcher._extract_domain` (`job_matcher.py:66-71`): the part after
the first `@`, lowercased; `None` when no `@` is present. -/
def extractDomain (e : String) : Option String :=
  if pyInB "@" e then ((e.splitOn "@").get? 1).map (fun s => ⟨lowerL s.toList⟩)
  else none

/-- `JobMatcher._timeline_score` (`job_matcher.py:79-88`), with times in
whole days: linear decay from 1 to 0 over the 90-day window, 0 beyond. -/
def timelineScore (application_date email_date : Int) : ℚ :=
  let days : Int := |email_date - application_date|
  if days ≤ 90 then 1 - (days : ℚ) / 90 else 0

/-- The matching weights of `JobMatcher` (`job_matcher.py:22-25`). -/
def companyNameWeight : ℚ := 4/10

/-- Weight of the domain-match signal. -/
def domainWeight : ℚ := 2/10

/-- Weight of the position-title signal. -/
def positionWeight : ℚ := 3/10

/-- Weight of the timeline-proximity signal. -/
def timelineWeight : ℚ := 1/10

/-- The domain-match sub-score computed inside `find_matches`
(`job_matcher.py:122-130`): only computed when both the sender domain and
the job's `company_domain` are truthy; then `1.0` when they are equal or
the company domain is a substring of the sender domain, else `0.0`. -/
def domainScore (sender_domain company_domain : Option String) : ℚ :=
  if truthyS sender_domain ∧ truthyS company_domain then
    if sender_domain.getD "" = company_domain.getD "" ∨
        pyInB (company_domain.getD "") (sender_domain.getD "") then 1
    else 0
  else 0

/-- A job-application row returned by
`DatabaseRepository.get_recent_job_applications` (`repository.py:380-402`);
the SQL orders rows by `applied_at DESC`. -/
structure JobRec where
  job_id : Nat
  company_name : Option String
  position_title : Option String
  company_domain : Option String
  applied_at : Option Int
  effort_level : Option String
  deriving DecidableEq, Repr

/-- The fields of `src/db/models.py` `EmailModel` that the matcher reads. -/
structure EmailRec where
  gmail_id : String
  subject : Option String
  sender_email : Option String
  body_text : Option String
  body_html : Option String
  received_at : Int
  deriving DecidableEq, Repr

/-- `src/db/models.py` `JobMatchCandidate`.  `match_signals` holds the
numeric signals; the string-valued `ai_reasoning` signal set by
`disambiguate_with_ai` is modelled as a separate field since the Python
dict is heterogeneous. -/
structure JobMatchCandidate where
  job_id : Nat
  company_name : String
  position_title : String
  match_score : ℚ
  signals : List (String × ℚ)
  application_date : Option Int
  effort_level : Option String
  ai_reasoning : Option String
  deriving DecidableEq, Repr

/-- `email_text = (email.subject or "") + " " + (email.body_text or "")`
(`job_matcher.py:104`). -/
def emailText (e : EmailRec) : String :=
  (e.subject.getD "") ++ " " ++ (e.body_text.getD "")

/-- `s[:500]`: the first 500 characters. -/
def take500 (s : String) : String := ⟨s.toList.take 500⟩

/-- The per-job scoring loop body of `JobMatcher.find_matches`
(`job_matcher.py:108-150`): weighted aggregate score and the signal map
in insertion order. -/
def scoreJob (email : EmailRec) (job : JobRec) : ℚ × List (String × ℚ) :=
  let sender_domain := extractDomain (email.sender_email.getD "")
  let text := take500 (emailText email)
  let companyPart : ℚ × List (String × ℚ) :=
    match job.company_name with
    | some cn =>
        if cn ≠ "" then
          let s := fuzzyMatchScore cn text
          (s * companyNameWeight, [("company_name_fuzzy", s)])
        else (0, [])
    | none => (0, [])
  let domainPart : ℚ × List (String × ℚ) :=
    if truthyS sender_domain ∧ truthyS job.company_domain then
      let ds := domainScore sender_domain job.company_domain
      (ds * domainWeight, [("domain_match", ds)])
    else (0, [])
  let positionPart : ℚ × List (String × ℚ) :=
    match job.position_title with
    | some pt =>
        if pt ≠ "" then
          let s := fuzzyMatchScore pt text
          (s * positionWeight, [("position_title_fuzzy", s)])
        else (0, [])
    | none => (0, [])
  let timelinePart : ℚ × List (String × ℚ) :=
    match job.applied_at with
    | some ad =>
        let ts := timelineScore ad email.received_at
        (ts * timelineWeight, [("timeline_proximity", ts)])
    | none => (0, [])
  (companyPart.1 + domainPart.1 + positionPart.1 + timelinePart.1,
    companyPart.2 ++ domainPart.2 ++ positionPart.2 ++ timelinePart.2)

/-- One step of Python's stable descending sort by `match_score`
(`candidates.sort(key=..., reverse=True)`, `job_matcher.py:165`): insert
`x` before the first element whose score is ≤ `x`'s, so that elements
appearing earlier in the input stay ahead of equal-scored later ones. -/
def insertCand (x : JobMatchCandidate) :
    List JobMatchCandidate → List JobMatchCandidate
  | [] => [x]
  | d :: ds =>
    if x.match_score < d.match_score then d :: insertCand x ds
    else x :: d :: ds

/-- Stable descending sort by `match_score`, modelling
`list.sort(key=lambda x: x.match_score, reverse=True)`. -/
def sortCands : List JobMatchCandidate → List JobMatchCandidate
  | [] => []
  | x :: xs => insertCand x (sortCands xs)

/-- `JobMatcher.find_matches` (`job_matcher.py:90-167`): score each job,
keep candidates whose aggregate exceeds the 0.1 noise floor, sort by
descending score (stable, so the repository's `applied_at DESC` order
breaks ties). -/
def findMatches (email : EmailRec) (jobs : List JobRec) :
    List JobMatchCandidate :=
  sortCands (jobs.filterMap (fun job =>
    if (1 : ℚ)/10 < (scoreJob email job).1 then
      some { job_id := job.job_id
             company_name := job.company_name.getD "Unknown"
             position_title := job.position_title.getD "Unknown"
             match_score := (scoreJob email job).1
             signals := (scoreJob email job).2
             application_date := job.applied_at
             effort_level := job.effort_level
             ai_reasoning := none }
    else none))

/-- The reply of the external ranking service as consumed by
`disambiguate_with_ai` (`job_matcher.py:204-215`): parsed
`best_match_job_id`, optional `confidence` and `reasoning` (the Python
code supplies defaults via `dict.get`).  A failed call (timeout,
malformed JSON, unparsable id) is modelled as `Option.none` at the call
site. -/
structure AIResult where
  best_match_job_id : Nat
  confidence : Option ℚ
  reasoning : Option String
  deriving DecidableEq, Repr

/-- `JobMatcher.disambiguate_with_ai` (`job_matcher.py:169-224`): for
fewer than two candidates return the head (or `none`); on service
failure or an unknown returned id fall back to the top local candidate;
on a recognized id return that candidate with
`score := max(score, confidence)` and the reasoning annotation. -/
def disambiguateWithAI (cands : List JobMatchCandidate)
    (ai : Option AIResult) : Option JobMatchCandidate :=
  if cands.length < 2 then cands.head?
  else
    match ai with
    | none => cands.head?
    | some r =>
      match cands.find? (fun c => c.job_id = r.best_match_job_id) with
      | some c =>
          some { c with
                 match_score := max c.match_score
                   (r.confidence.getD c.match_score)
                 ai_reasoning := some (r.reasoning.getD "") }
      | none => cands.head?

/-- `settings.auto_match_threshold` (`config.py:44`). -/
def autoMatchThreshold : ℚ := 85/100

/-- `settings.review_threshold` (`config.py:45`). -/
def reviewThreshold : ℚ := 1/2

/-- The outcome of `match_email_to_job`: the returned pair
`(best_match, needs_manual_review)` plus an observation of whether the
AI disambiguation call was made. -/
structure MatchOutcome where
  result : Option JobMatchCandidate
  needs_review : Bool
  invoked_ai : Bool
  deriving DecidableEq, Repr

/-- `JobMatcher.match_email_to_job` (`job_matcher.py:226-263`), applied to
the candidate list produced by `find_matches`.  The two trailing branches
of the Python code (`score ≥ review_threshold` and below) both return
`(top, True)` and are collapsed. -/
def matchEmailToJob (candidates : List JobMatchCandidate)
    (ai : Option AIResult) : MatchOutcome :=
  match candidates with
  | [] => ⟨none, true, false⟩
  | top :: rest =>
    if autoMatchThreshold ≤ top.match_score then ⟨some top, false, false⟩
    else
      match rest with
      | second :: _ =>
        if |top.match_score - second.match_score| < 15/100 then
          match disambiguateWithAI (top :: rest) ai with
          | some best =>
              if autoMatchThreshold ≤ best.match_score then
                ⟨some best, false, true⟩
              else ⟨some best, true, true⟩
          | none => ⟨none, true, true⟩
        else ⟨some top, true, false⟩
      | [] => ⟨some top, true, false⟩

/-! ## Task materialization (`src/services/task_router.py`) -/

/-- Which creator produced a task (`TaskRouter._create_calendar_event`,
`_create_eisenhower_task`, `_create_work_task`). -/
inductive TaskKind where
  | calendar_event
  | eisenhower
  | work
  deriving DecidableEq, Repr

/-- A created `TickTickTaskModel`, restricted to the structured fields the
routing core sets; decorative title/content strings are carried as their
structured ingredients (category, company, position). -/
structure TaskSpec where
  email_id : String
  kind : TaskKind
  category : EmailCategory
  company : String
  position : String
  quadrant : Option Quadrant
  priority : ℤ
  tags : List String
  reminders : List String
  countdown_enabled : Bool
  start_time : Option String
  is_all_day : Bool
  deriving DecidableEq, Repr

/-- `TaskRouter._create_calendar_event` (`task_router.py:191-243`): `none`
when neither an `interview_date` nor a `deadline` key is present (the raw
extracted string is carried as the start time). -/
def createCalendarEventTask (email_id : String) (c : EmailClassification)
    (company position : String) (reminders : List String)
    (enable_countdown : Bool) : Option TaskSpec :=
  let ed := c.extracted_data.getD ⟨none, none⟩
  let event_time : Option String :=
    match ed.interview_date with
    | some s => some s
    | none => ed.deadline
  match event_time with
  | none => none
  | some t =>
    let is_deadline := c.category = .assignment
    some { email_id := email_id
           kind := .calendar_event
           category := c.category
           company := company
           position := position
           quadrant := none
           priority := 5
           tags := ["calendar", c.category.value]
           reminders := reminders
           countdown_enabled := enable_countdown
           start_time := some t
           is_all_day := is_deadline }

/-- `TaskRouter._create_eisenhower_task` (`task_router.py:245-301`). -/
def createEisenhowerTask (email_id : String) (c : EmailClassification)
    (quadrant : Quadrant) (company position : String) (priority : ℤ)
    (tags : List String) : TaskSpec :=
  { email_id := email_id
    kind := .eisenhower
    category := c.category
    company := company
    position := position
    quadrant := some quadrant
    priority := priority
    tags := tags
    reminders := []
    countdown_enabled := false
    start_time := none
    is_all_day := false }

/-- `TaskRouter._create_work_task` (`task_router.py:303-361`). -/
def createWorkTask (email_id : String) (c : EmailClassification)
    (company position : String) (priority : ℤ) (tags : List String) :
    TaskSpec :=
  { email_id := email_id
    kind := .work
    category := c.category
    company := company
    position := position
    quadrant := none
    priority := priority
    tags := tags ++ ["work"]
    reminders := []
    countdown_enabled := false
    start_time := none
    is_all_day := false }

/-- `TaskRouter.route_email` (`task_router.py:120-189`): the list of tasks
created for one email — optional calendar event, an Eisenhower task
unless the email is a rejection with effort ≠ high, and a work task for
actionable categories. -/
def routeEmailTasks (email_id : String) (c : EmailClassification)
    (job_match : Option JobMatchCandidate) (effort_level : Option String) :
    List TaskSpec :=
  let routing := determineRouting c effort_level
  let company := match job_match with
    | some m => m.company_name
    | none => "Unknown Company"
  let position := match job_match with
    | some m => m.position_title
    | none => "Position"
  let cal : List TaskSpec :=
    if routing.create_calendar_event then
      (createCalendarEventTask email_id c company position
        routing.reminders routing.enable_countdown).toList
    else []
  let eis : List TaskSpec :=
    if ¬(c.category = .rejection ∧ effort_level ≠ some "high") then
      [createEisenhowerTask email_id c routing.quadrant company position
        routing.priority routing.tags]
    else []
  let work : List TaskSpec :=
    if c.category ∈ [EmailCategory.interview_invite, .assignment,
        .follow_up_needed] then
      [createWorkTask email_id c company position routing.priority
        routing.tags]
    else []
  cal ++ eis ++ work

/-! ## Match-record creation sites -/

/-- `src/db/models.py` `EmailJobMatchModel`, restricted to the fields the
creation sites set. -/
structure MatchRecord where
  email_id : String
  job_id : Option Nat
  match_score : ℚ
  match_method : MatchMethod
  needs_review : Bool
  reviewed : Bool
  deriving DecidableEq, Repr

/-- The match record written by `EmailProcessor._process_inbound_email`
(`email_processor.py:146-156`): only when a best match exists;
`match_method` is `AUTO` when no review is needed, else
`AI_DISAMBIGUATION`; `needs_review` is the matcher's verdict. -/
def inboundMatchRecord (email_id : String) (m : MatchOutcome) :
    Option MatchRecord :=
  m.result.map (fun best =>
    { email_id := email_id
      job_id := some best.job_id
      match_score := best.match_score
      match_method := if m.needs_review then .ai_disambiguation else .auto
      needs_review := m.needs_review
      reviewed := false })

/-- The match record written by `EmailProcessor._process_outbound_email`
(`email_processor.py:248-259`): the matcher's `needs_manual_review` flag
is discarded and `needs_review` is always `False`. -/
def outboundMatchRecord (email_id : String) (m : MatchOutcome) :
    Option MatchRecord :=
  m.result.map (fun best =>
    { email_id := email_id
      job_id := some best.job_id
      match_score := best.match_score
      match_method := .auto
      needs_review := false
      reviewed := false })

/-- `JobLinker.manual_link` (`job_linker.py:33-56`): manual match with
score 1.0 and no review needed. -/
def manualLinkRecord (email_id : String) (job_id : Nat) : MatchRecord :=
  { email_id := email_id
    job_id := some job_id
    match_score := 1
    match_method := .manual
    needs_review := false
    reviewed := true }

/-! ## Processing orchestrator (`src/services/email_processor.py`) -/

/-- A stored `EmailModel` row, restricted to the fields the idempotency
guard and the write path touch. -/
structure StoredEmail where
  gmail_id : String
  processed : Bool
  category : Option EmailCategory
  sentiment : Option Sentiment
  confidence : Option ℚ
  deriving DecidableEq, Repr

/-- A `ManualReviewQueueModel` entry, restricted to the fields
`_process_inbound_email` sets. -/
structure ReviewEntry where
  email_id : String
  reason : String
  priority : ℤ
  deriving DecidableEq, Repr

/-- A `ResponseAnalyticsModel` record, restricted to the fields the
claims observe. -/
structure AnalyticsRecord where
  email_id : String
  job_id : Option Nat
  response_type : String
  effort_level : Option String
  deriving DecidableEq, Repr

/-- The persistent state touched by the processing pipeline: stored
emails, match decisions, review queue, analytics, created tasks. -/
structure DB where
  emails : List StoredEmail
  match_records : List MatchRecord
  review_queue : List ReviewEntry
  analytics : List AnalyticsRecord
  tasks : List TaskSpec
  deriving DecidableEq, Repr

/-- `DatabaseRepository.get_email_by_gmail_id` as used by the guard at
`email_processor.py:99`. -/
def getEmailByGmailId (db : DB) (gid : String) : Option StoredEmail :=
  db.emails.find? (fun e => e.gmail_id = gid)

/-- The per-message external-collaborator outcomes consumed by one
inbound pipeline run: the classification, the repository's recent-job
rows (ordered `applied_at DESC`), the ranking service's reply, and the
`effort_level` returned by `get_job_by_id` for the matched job. -/
structure ExternalInputs where
  classification : EmailClassification
  jobs : List JobRec
  ai : Option AIResult
  effort_lookup : Option String
  deriving Repr

/-- `EmailProcessor._process_inbound_email` (`email_processor.py:130-233`)
as a state transformer: classify (given), save the email, match, record
the match, queue review if needed, record analytics for terminal
categories, route to tasks unless review is needed (interview/offer
route regardless), and mark the email processed. -/
def processInboundEmail (db : DB) (email : EmailRec)
    (ext : ExternalInputs) : DB :=
  let c := ext.classification
  let db1 : DB := { db with emails := db.emails ++
    [{ gmail_id := email.gmail_id
       processed := false
       category := some c.category
       sentiment := some c.sentiment
       confidence := some c.confidence }] }
  let m := matchEmailToJob (findMatches email ext.jobs) ext.ai
  let db2 : DB := match inboundMatchRecord email.gmail_id m with
    | some rec => { db1 with match_records := db1.match_records ++ [rec] }
    | none => db1
  let effort_level : Option String := match m.result with
    | some _ => ext.effort_lookup
    | none => none
  let needs_review : Bool := match m.result with
    | some _ => m.needs_review
    | none => true
  let db3 : DB := if needs_review then
      let reason := if c.category = .unknown then "ambiguous_category"
        else match m.result with
          | none => "no_match_found"
          | some _ => "low_confidence_match"
      { db2 with review_queue := db2.review_queue ++
        [{ email_id := email.gmail_id
           reason := reason
           priority := if c.category ∈ [EmailCategory.interview_invite,
              .offer] then 8 else 5 }] }
    else db2
  let db4 : DB := if c.category ∈ [EmailCategory.rejection, .interview_invite,
      .offer] then
      { db3 with analytics := db3.analytics ++
        [{ email_id := email.gmail_id
           job_id := m.result.map (fun b => b.job_id)
           response_type := c.category.value
           effort_level := effort_level }] }
    else db3
  let db5 : DB := if needs_review = false ∨ c.category ∈ [EmailCategory.interview_invite,
      .offer] then
      { db4 with tasks := db4.tasks ++
        routeEmailTasks email.gmail_id c m.result effort_level }
    else db4
  { db5 with emails := db5.emails.map (fun e =>
      if e.gmail_id = email.gmail_id then { e with processed := true }
      else e) }

/-- One iteration of the inbox loop of `process_new_emails`
(`email_processor.py:96-108`): skip the message when a stored record
exists and is already marked processed. -/
def processInboundStep (db : DB) (email : EmailRec)
    (ext : ExternalInputs) : DB :=
  match getEmailByGmailId db email.gmail_id with
  | some existing =>
      if existing.processed then db else processInboundEmail db email ext
  | none => processInboundEmail db email ext

/-- The inbox half of `EmailProcessor.process_new_emails`
(`email_processor.py:89-108`): fold the per-message step over the fetched
messages. -/
def processNewEmails (db : DB)
    (batch : List (EmailRec × ExternalInputs)) : DB :=
  batch.foldl (fun d p => processInboundStep d p.1 p.2) db

/-! ## Ordering vocabulary for the candidate-sorting claims -/

/-- Candidate order required of `find_matches` output: descending
aggregate score, and among equal scores the more recently applied
record first. -/
abbrev candLE (c d : JobMatchCandidate) : Prop :=
  d.match_score ≤ c.match_score ∧
    (c.match_score = d.match_score →
      d.application_date.getD 0 ≤ c.application_date.getD 0)

/-- "`c` was applied no earlier than `d`", on candidates. -/
abbrev appliedGE (c d : JobMatchCandidate) : Prop :=
  d.application_date.getD 0 ≤ c.application_date.getD 0

/-- "`a` was applied no earlier than `b`", on repository job rows: the
order the SQL `ORDER BY applied_at DESC` guarantees. -/
abbrev jobAppliedGE (a b : JobRec) : Prop :=
  b.applied_at.getD 0 ≤ a.applied_at.getD 0

/-! # Theorems -/

/-! ## Similarity-function lemmas -/

theorem lcsLen_self (s : List Char) : lcsLen s s = s.length := by
  induction s with
  | nil => simp [lcsLen]
  | cons a t ih => simp [lcsLen, ih]

theorem lcsLen_le_left (a b : List Char) : lcsLen a b ≤ a.length := by
  induction a, b using lcsLen.induct with
  | case1 b => simp [lcsLen]
  | case2 a as => simp [lcsLen]
  | case3 as b bs ih =>
      simp only [lcsLen, if_pos rfl, List.length_cons]
      exact Nat.add_le_add_right ih 1
  | case4 a as b bs hne ih1 ih2 =>
      simp only [lcsLen, if_neg hne, List.length_cons]
      exact max_le (by simpa using ih1)
        (le_trans ih2 (Nat.le_succ _))

theorem lcsLen_le_right (a b : List Char) : lcsLen a b ≤ b.length := by
  induction a, b using lcsLen.induct with
  | case1 b => simp [lcsLen]
  | case2 a as => simp [lcsLen]
  | case3 as b bs ih =>
      simp only [lcsLen, if_pos rfl, List.length_cons]
      exact Nat.add_le_add_right ih 1
  | case4 a as b bs hne ih1 ih2 =>
      simp only [lcsLen, if_neg hne, List.length_cons]
      exact max_le (le_trans ih1 (Nat.le_succ _))
        (by simpa using ih2)

theorem toList_ne_nil (s : String) (h : s ≠ "") : s.toList ≠ [] := by
  cases s with
  | mk data =>
      intro hc
      simp [String.toList] at hc
      subst hc
      exact h rfl

/-- C7 counterexample input: the similarity function short-circuits empty
strings to 0, so `similarity("", "") = 0 ≠ 1`. -/
theorem C7_claim_counterexample :
    fuzzyMatchScore "" "" = 0 ∧ (0 : ℚ) ≠ 1 :=
  ⟨rfl, by norm_num⟩

/-- C7 (amended): for every **non-empty** string `x`,
`similarity(x, x) = 1`; and for all strings `x`, `y`,
`0 ≤ similarity(x, y) ≤ 1`.  (As stated the claim fails at `x = ""`,
where the falsy-input guard of `_fuzzy_match_score` returns `0`.) -/
theorem C7_similarity_bounds_and_identity :
    (∀ x : String, x ≠ "" → fuzzyMatchScore x x = 1) ∧
      ∀ x y : String, 0 ≤ fuzzyMatchScore x y ∧ fuzzyMatchScore x y ≤ 1 := by
  constructor
  · intro x hx
    have hcond : ¬(x = "" ∨ x = "") := by simpa using hx
    have hnil : x.toList ≠ [] := toList_ne_nil x hx
    have hlen : (lowerL x.toList).length = x.toList.length :=
      List.length_map _ _
    have hpos : 0 < ((lowerL x.toList).length : ℚ) := by
      rw [hlen]
      exact_mod_cast List.length_pos.mpr hnil
    have hgt : 0 < (((lowerL x.toList).length : ℚ) +
        ((lowerL x.toList).length : ℚ)) * 100 := by linarith
    rw [fuzzyMatchScore, if_neg hcond, fuzzRatio, lcsLen_self, div_div]
    rw [div_eq_one_iff_eq (ne_of_gt hgt)]
    ring
  · intro x y
    by_cases hcond : x = "" ∨ y = ""
    · rw [fuzzyMatchScore, if_pos hcond]
      norm_num
    · push_neg at hcond
      have hxnil : x.toList ≠ [] := toList_ne_nil x hcond.1
      have hynil : y.toList ≠ [] := toList_ne_nil y hcond.2
      set A := lowerL x.toList with hA
      set B := lowerL y.toList with hB
      have hApos : 0 < (A.length : ℚ) := by
        rw [hA]
        simp only [lowerL, List.length_map]
        exact_mod_cast List.length_pos.mpr hxnil
      have hBpos : 0 < (B.length : ℚ) := by
        rw [hB]
        simp only [lowerL, List.length_map]
        exact_mod_cast List.length_pos.mpr hynil
      have hdpos : 0 < (A.length : ℚ) + (B.length : ℚ) := by linarith
      have hnum : (2 * (lcsLen A B : ℚ)) ≤ (A.length : ℚ) + (B.length : ℚ) := by
        have h1 := lcsLen_le_left A B
        have h2 := lcsLen_le_right A B
        have : 2 * lcsLen A B ≤ A.length + B.length := by omega
        exact_mod_cast this
      have hcond2 : ¬(x = "" ∨ y = "") := by
        push_neg
        exact hcond
      rw [fuzzyMatchScore, if_neg hcond2, fuzzRatio]
      constructor
      · positivity
      · rw [div_le_one (by norm_num : (0:ℚ) < 100), div_le_iff₀ hdpos]
        nlinarith

/-- C7 witness: the amended identity at the concrete non-empty string
`"abc"`. -/
theorem C7_witness : fuzzyMatchScore "abc" "abc" = 1 :=
  C7_similarity_bounds_and_identity.1 "abc" (by decide)

/-! ## Routing claims -/

/-- C2: a classification with category `rejection` and effort level other
than `"high"` (including `None`) routes to quadrant Q4 with base
priority 1, and `route_email` materializes no task at all for it: no
calendar event, no Eisenhower task, no work task. -/
theorem C2_rejection_non_high_no_tasks (c : EmailClassification)
    (effort : Option String) (email_id : String)
    (jm : Option JobMatchCandidate)
    (hcat : c.category = .rejection) (he : effort ≠ some "high") :
    (baseRouting c effort).quadrant = .q4 ∧
      (baseRouting c effort).priority = 1 ∧
      (determineRouting c effort).quadrant = .q4 ∧
      routeEmailTasks email_id c jm effort = [] := by
  obtain ⟨cat, sent, conf, reas, ed⟩ := c
  simp only at hcat
  subst hcat
  cases sent <;>
    simp [baseRouting, determineRouting, applySentiment, routeEmailTasks, he]

/-- C2 witness: a concrete neutral rejection with no effort level yields
Q4, base priority 1, and an empty task list. -/
theorem C2_witness :
    (baseRouting ⟨.rejection, .neutral, 1, none, none⟩ none).quadrant = .q4 ∧
      (baseRouting ⟨.rejection, .neutral, 1, none, none⟩ none).priority = 1 ∧
      (determineRouting ⟨.rejection, .neutral, 1, none, none⟩ none).quadrant
        = .q4 ∧
      routeEmailTasks "gid-c2" ⟨.rejection, .neutral, 1, none, none⟩ none none
        = [] :=
  C2_rejection_non_high_no_tasks ⟨.rejection, .neutral, 1, none, none⟩
    none "gid-c2" none rfl (by decide)

/-- C4: for category `interview_invite` or `offer`, any sentiment and any
effort level, routing yields Q1 with final priority 5 (the positive
bump is a no-op at 5); a calendar event is flagged exactly when a truthy
`interview_date` was extracted; reminders are
`[-1d, -1h, -15m]` with a calendar event and `[-1d]` otherwise. -/
theorem C4_interview_offer_routing (c : EmailClassification)
    (effort : Option String)
    (hcat : c.category = .interview_invite ∨ c.category = .offer) :
    (determineRouting c effort).quadrant = .q1 ∧
      (determineRouting c effort).priority = 5 ∧
      (determineRouting c effort).create_calendar_event
        = hasInterviewDate c ∧
      (determineRouting c effort).enable_countdown = hasInterviewDate c ∧
      (determineRouting c effort).reminders =
        (if hasInterviewDate c then ["-1d", "-1h", "-15m"] else ["-1d"]) := by
  obtain ⟨cat, sent, conf, reas, ed⟩ := c
  simp only at hcat
  rcases hcat with h | h <;> subst h <;> cases sent <;>
    simp [determineRouting, baseRouting, applySentiment]

/-- C4 witness: a concrete negative interview invitation with an
extracted interview date. -/
theorem C4_witness :
    (determineRouting
        ⟨.interview_invite, .negative, 1, none,
          some ⟨some "2025-06-01T10:00", none⟩⟩ none).quadrant = .q1 ∧
      (determineRouting
        ⟨.interview_invite, .negative, 1, none,
          some ⟨some "2025-06-01T10:00", none⟩⟩ none).priority = 5 ∧
      (determineRouting
        ⟨.interview_invite, .negative, 1, none,
          some ⟨some "2025-06-01T10:00", none⟩⟩ none).create_calendar_event
        = hasInterviewDate
          ⟨.interview_invite, .negative, 1, none,
            some ⟨some "2025-06-01T10:00", none⟩⟩ ∧
      (determineRouting
        ⟨.interview_invite, .negative, 1, none,
          some ⟨some "2025-06-01T10:00", none⟩⟩ none).enable_countdown
        = hasInterviewDate
          ⟨.interview_invite, .negative, 1, none,
            some ⟨some "2025-06-01T10:00", none⟩⟩ ∧
      (determineRouting
        ⟨.interview_invite, .negative, 1, none,
          some ⟨some "2025-06-01T10:00", none⟩⟩ none).reminders =
        (if hasInterviewDate
            ⟨.interview_invite, .negative, 1, none,
              some ⟨some "2025-06-01T10:00", none⟩⟩ then
          ["-1d", "-1h", "-15m"] else ["-1d"]) :=
  C4_interview_offer_routing
    ⟨.interview_invite, .negative, 1, none,
      some ⟨some "2025-06-01T10:00", none⟩⟩ none (Or.inl rfl)

/-- C10: for every classification (all eleven categories, all three
sentiments) and every effort level, the routing decision's priority lies
in `[1, 5]` and its tag list is exactly the category's string value
followed by exactly one sentiment tag. -/
theorem C10_priority_bounds_and_tags (c : EmailClassification)
    (effort : Option String) :
    1 ≤ (determineRouting c effort).priority ∧
      (determineRouting c effort).priority ≤ 5 ∧
      (determineRouting c effort).tags =
        [c.category.value,
          match c.sentiment with
          | .positive => "positive"
          | .negative => "negative"
          | .neutral => "neutral"] := by
  obtain ⟨cat, sent, conf, reas, ed⟩ := c
  cases cat <;> cases sent <;>
    by_cases he : effort = some "high" <;>
      simp [determineRouting, baseRouting, applySentiment,
        EmailCategory.value, he]

/-! ## Match-decision claims -/

/-- C1 counterexample: with top score 0.9 and second score 0.85 the gap
is 0.05 < 0.15, yet `match_email_to_job` auto-matches at line 242 before
reaching the ambiguity check, so AI disambiguation is **not** invoked. -/
theorem C1_claim_counterexample :
    let c1 : JobMatchCandidate :=
      { job_id := 1
        company_name := "A"
        position_title := "P"
        match_score := 9/10
        signals := []
        application_date := none
        effort_level := none
        ai_reasoning := none }
    let c2 : JobMatchCandidate :=
      { job_id := 2
        company_name := "B"
        position_title := "P"
        match_score := 85/100
        signals := []
        application_date := none
        effort_level := none
        ai_reasoning := none }
    (matchEmailToJob [c1, c2] none).invoked_ai = false ∧
      |c1.match_score - c2.match_score| < 15/100 ∧
      autoMatchThreshold ≤ c1.match_score := by
  refine ⟨?_, ?_, by norm_num [autoMatchThreshold]⟩
  · norm_num [matchEmailToJob, autoMatchThreshold]
  · simp only [abs_lt]
    constructor <;> norm_num

/-- C1 (amended): for every candidate list with at least two candidates,
AI disambiguation is invoked if and only if the top score is **below the
auto-match threshold 0.85** and the top-two gap is below 0.15; the
original claim omitted the first condition. -/
theorem C1_disambiguation_gate (top second : JobMatchCandidate)
    (rest : List JobMatchCandidate) (ai : Option AIResult) :
    (matchEmailToJob (top :: second :: rest) ai).invoked_ai = true ↔
      top.match_score < autoMatchThreshold ∧
        |top.match_score - second.match_score| < 15/100 := by
  by_cases h1 : autoMatchThreshold ≤ top.match_score
  · simp [matchEmailToJob, h1, not_lt.mpr h1]
  · by_cases h2 : |top.match_score - second.match_score| < 15/100
    · rcases hd : disambiguateWithAI (top :: second :: rest) ai with _ | best
      · simp [matchEmailToJob, h1, h2, hd, not_le.mp h1]
      · by_cases h3 : autoMatchThreshold ≤ best.match_score <;>
          simp [matchEmailToJob, h1, h2, hd, h3, not_le.mp h1]
    · simp [matchEmailToJob, h1, h2]

/-- If `match_email_to_job` reports `needs_manual_review = False` for a
returned candidate, that candidate's score clears
`auto_match_threshold`: both `False`-returning branches
(`job_matcher.py:243` and `job_matcher.py:254`) are score-guarded. -/
theorem matchEmailToJob_no_review_threshold
    (cands : List JobMatchCandidate) (ai : Option AIResult)
    (c : JobMatchCandidate)
    (hres : (matchEmailToJob cands ai).result = some c)
    (hnr : (matchEmailToJob cands ai).needs_review = false) :
    autoMatchThreshold ≤ c.match_score := by
  match cands with
  | [] => simp [matchEmailToJob] at hnr
  | top :: rest =>
    by_cases h1 : autoMatchThreshold ≤ top.match_score
    · simp [matchEmailToJob, h1] at hres
      subst hres
      exact h1
    · rcases rest with _ | ⟨second, rest2⟩
      · simp [matchEmailToJob, h1] at hnr
      · by_cases h2 : |top.match_score - second.match_score| < 15/100
        · rcases hd : disambiguateWithAI (top :: second :: rest2) ai
            with _ | best
          · simp [matchEmailToJob, h1, h2, hd] at hres
          · by_cases h3 : autoMatchThreshold ≤ best.match_score
            · simp [matchEmailToJob, h1, h2, hd, h3] at hres
              subst hres
              exact h3
            · simp [matchEmailToJob, h1, h2, hd, h3] at hnr
        · simp [matchEmailToJob, h1, h2] at hnr

/-- C3 counterexample: `_process_outbound_email` discards the matcher's
review verdict and writes `needs_review = False` at any score.  With a
single candidate scoring 0.6 the matcher returns
`needs_manual_review = True`, yet the outbound match record has
`needs_review = False` and a score below the 0.85 threshold. -/
theorem C3_claim_counterexample :
    let c : JobMatchCandidate :=
      { job_id := 7
        company_name := "A"
        position_title := "P"
        match_score := 3/5
        signals := []
        application_date := none
        effort_level := none
        ai_reasoning := none }
    (matchEmailToJob [c] none).needs_review = true ∧
      outboundMatchRecord "gid-c3" (matchEmailToJob [c] none) =
        some { email_id := "gid-c3"
               job_id := some 7
               match_score := 3/5
               match_method := .auto
               needs_review := false
               reviewed := false } ∧
      (3/5 : ℚ) < autoMatchThreshold := by
  refine ⟨?_, ?_, by norm_num [autoMatchThreshold]⟩
  · norm_num [matchEmailToJob, autoMatchThreshold]
  · norm_num [matchEmailToJob, outboundMatchRecord, autoMatchThreshold]

/-- C3 (amended): the invariant `needs_review = false → score ≥ 0.85`
holds for match records created by inbound automatic matching and by
manual linking (score 1.0); it does **not** hold for outbound records,
which always set `needs_review = False` regardless of score. -/
theorem C3_needs_review_implies_threshold :
    (∀ (gid : String) (cands : List JobMatchCandidate)
        (ai : Option AIResult) (r : MatchRecord),
        inboundMatchRecord gid (matchEmailToJob cands ai) = some r →
        r.needs_review = false → autoMatchThreshold ≤ r.match_score) ∧
      ∀ (gid : String) (jid : Nat),
        (manualLinkRecord gid jid).needs_review = false ∧
          autoMatchThreshold ≤ (manualLinkRecord gid jid).match_score := by
  constructor
  · intro gid cands ai r h hnr
    rw [inboundMatchRecord, Option.map_eq_some'] at h
    obtain ⟨best, hbest, hrec⟩ := h
    subst hrec
    simp only at hnr
    have := matchEmailToJob_no_review_threshold cands ai best hbest hnr
    simpa using this
  · intro gid jid
    refine ⟨rfl, by norm_num [manualLinkRecord, autoMatchThreshold]⟩

/-- C3 witness: the amended invariant applied to a concrete
auto-matched inbound record with score 0.9. -/
theorem C3_witness :
    autoMatchThreshold ≤
      ({ email_id := "gid-c3w"
         job_id := some 4
         match_score := 9/10
         match_method := .auto
         needs_review := false
         reviewed := false } : MatchRecord).match_score :=
  C3_needs_review_implies_threshold.1 "gid-c3w"
    [{ job_id := 4
       company_name := "A"
       position_title := "P"
       match_score := 9/10
       signals := []
       application_date := none
       effort_level := none
       ai_reasoning := none }] none
    { email_id := "gid-c3w"
      job_id := some 4
      match_score := 9/10
      match_method := .auto
      needs_review := false
      reviewed := false }
    (by norm_num [matchEmailToJob, inboundMatchRecord, autoMatchThreshold]) rfl

/-! ## Disambiguation reconciliation (C5) -/

/-- C5: for any list of at least two candidates, disambiguation
reconciliation (a) returns the candidate matching the service's returned
id with score raised to `max(original, confidence)` — never lowered —
annotated with the justification; (b) falls back to the top
locally-scored candidate when the returned id matches no candidate; and
(c) falls back to the top candidate when the call fails (`ai = none`),
never propagating an error (the embedding is a total function). -/
theorem C5_disambiguation_reconciliation
    (top second : JobMatchCandidate) (rest : List JobMatchCandidate)
    (r : AIResult) :
    (∀ c, (top :: second :: rest).find?
        (fun x => x.job_id = r.best_match_job_id) = some c →
        disambiguateWithAI (top :: second :: rest) (some r) =
          some { c with
                 match_score := max c.match_score
                   (r.confidence.getD c.match_score)
                 ai_reasoning := some (r.reasoning.getD "") } ∧
          c.match_score ≤ max c.match_score
            (r.confidence.getD c.match_score)) ∧
      ((top :: second :: rest).find?
          (fun x => x.job_id = r.best_match_job_id) = none →
        disambiguateWithAI (top :: second :: rest) (some r) = some top) ∧
      disambiguateWithAI (top :: second :: rest) none = some top := by
  have hlen : ¬((top :: second :: rest).length < 2) := by
    simp
  refine ⟨?_, ?_, ?_⟩
  · intro c hc
    rw [disambiguateWithAI, if_neg hlen, hc]
    exact ⟨rfl, le_max_left _ _⟩
  · intro h
    rw [disambiguateWithAI, if_neg hlen, h]
    rfl
  · rw [disambiguateWithAI, if_neg hlen]
    rfl

/-- C5 witness: the service picks the second of two concrete candidates
with confidence 0.95, raising its 0.55 score to 0.95; a failed call
falls back to the first candidate. -/
theorem C5_witness :
    let c1 : JobMatchCandidate :=
      { job_id := 1
        company_name := "A"
        position_title := "P"
        match_score := 6/10
        signals := []
        application_date := none
        effort_level := none
        ai_reasoning := none }
    let c2 : JobMatchCandidate :=
      { job_id := 2
        company_name := "B"
        position_title := "Q"
        match_score := 55/100
        signals := []
        application_date := none
        effort_level := none
        ai_reasoning := none }
    let r : AIResult := ⟨2, some (19/20), some "domain and recency"⟩
    disambiguateWithAI [c1, c2] (some r) =
        some { c2 with
               match_score := max c2.match_score
                 (r.confidence.getD c2.match_score)
               ai_reasoning := some (r.reasoning.getD "") } ∧
      disambiguateWithAI [c1, c2] none = some c1 := by
  intro c1 c2 r
  exact ⟨((C5_disambiguation_reconciliation c1 c2 [] r).1 c2 (by simp)).1,
    (C5_disambiguation_reconciliation c1 c2 [] r).2.2⟩

/-! ## Orchestrator idempotency (C6) -/

/-- C6: when the stored record for an inbound message is already marked
processed, the processing-loop step leaves the entire state unchanged:
no email, match record, review-queue entry, analytics record, or task
is created. -/
theorem C6_processed_skip (db : DB) (email : EmailRec)
    (ext : ExternalInputs) (ex : StoredEmail)
    (hfind : getEmailByGmailId db email.gmail_id = some ex)
    (hproc : ex.processed = true) :
    processInboundStep db email ext = db := by
  rw [processInboundStep, hfind]
  simp [hproc]

/-- C6 witness: a concrete one-email store whose record is processed;
the step is the identity on the store. -/
theorem C6_witness :
    let st : StoredEmail :=
      { gmail_id := "g6"
        processed := true
        category := none
        sentiment := none
        confidence := none }
    let db0 : DB :=
      { emails := [st]
        match_records := []
        review_queue := []
        analytics := []
        tasks := [] }
    let e0 : EmailRec :=
      { gmail_id := "g6"
        subject := some "hello"
        sender_email := none
        body_text := none
        body_html := none
        received_at := 0 }
    let x0 : ExternalInputs :=
      { classification := ⟨.info, .neutral, 1, none, none⟩
        jobs := []
        ai := none
        effort_lookup := none }
    processInboundStep db0 e0 x0 = db0 := by
  intro st db0 e0 x0
  exact C6_processed_skip db0 e0 x0 st (by rfl) rfl

/-! ## Domain-match claims (C8) -/

/-- C8 counterexample: with sender domain `"ab"` and company domain
`"b"`, the code's containment test `company_domain in sender_domain`
fires and the sub-score is 1.0, although the sender domain neither
equals nor is contained within the company domain as the claim
requires. -/
theorem C8_claim_counterexample :
    domainScore (some "ab") (some "b") = 1 ∧
      ¬("ab" = "b" ∨ pyInB "ab" "b" = true) := by
  constructor
  · rfl
  · decide

/-- C8 (amended): when both domains are present and non-empty, the
domain sub-score is 1.0 iff the sender domain equals the company domain
**or the company domain is contained within the sender domain** (the
reverse of the claim's containment direction), and 0.0 otherwise; a
missing side yields sub-score 0 (contributing 0 to the weighted
aggregate) rather than an error. -/
theorem C8_domain_match_rule :
    (∀ sd cd : String, sd ≠ "" → cd ≠ "" →
        ((domainScore (some sd) (some cd) = 1 ↔
            (sd = cd ∨ pyInB cd sd = true)) ∧
          (¬(sd = cd ∨ pyInB cd sd = true) →
            domainScore (some sd) (some cd) = 0))) ∧
      ∀ o : Option String, domainScore none o = 0 ∧ domainScore o none = 0 := by
  constructor
  · intro sd cd h1 h2
    constructor
    · by_cases h : sd = cd ∨ pyInB cd sd = true
      · simp [domainScore, truthyS, h1, h2, h]
      · simp [domainScore, truthyS, h1, h2, h]
    · intro h
      simp [domainScore, truthyS, h1, h2, h]
  · intro o
    cases o <;> simp [domainScore, truthyS]

/-- C8 witness: the amended rule at concrete non-empty domains, in the
positive direction (`mail.acme.com` contains `acme.com`). -/
theorem C8_witness :
    domainScore (some "mail.acme.com") (some "acme.com") = 1 :=
  ((C8_domain_match_rule.1 "mail.acme.com" "acme.com"
    (by decide) (by decide)).1).mpr (Or.inr (by decide))

/-! ## Candidate-ordering claims (C9) -/

theorem mem_insertCand (x y : JobMatchCandidate)
    (l : List JobMatchCandidate) :
    y ∈ insertCand x l ↔ y = x ∨ y ∈ l := by
  induction l with
  | nil => simp [insertCand]
  | cons d ds ih =>
      simp only [insertCand]
      split
      · simp only [List.mem_cons, ih]
        tauto
      · simp only [List.mem_cons]

theorem pairwise_insertCand (x : JobMatchCandidate)
    (l : List JobMatchCandidate) (hl : l.Pairwise candLE)
    (hx : ∀ d ∈ l, appliedGE x d) :
    (insertCand x l).Pairwise candLE := by
  induction l with
  | nil => simp [insertCand]
  | cons d ds ih =>
      rw [List.pairwise_cons] at hl
      obtain ⟨hd, hds⟩ := hl
      have hxd : appliedGE x d := hx d (by simp)
      have hxds : ∀ e ∈ ds, appliedGE x e := fun e he => hx e (by simp [he])
      simp only [insertCand]
      split
      · rename_i h
        rw [List.pairwise_cons]
        refine ⟨?_, ih hds hxds⟩
        intro e he
        rcases (mem_insertCand x e ds).mp he with rfl | hin
        · exact ⟨le_of_lt h, fun heq => absurd heq (ne_of_gt h)⟩
        · exact hd e hin
      · rename_i h
        push_neg at h
        rw [List.pairwise_cons]
        refine ⟨?_, List.pairwise_cons.mpr ⟨hd, hds⟩⟩
        intro e he
        rcases List.mem_cons.mp he with rfl | hin
        · exact ⟨h, fun _ => hxd⟩
        · exact ⟨le_trans (hd e hin).1 h, fun _ => hxds e hin⟩

theorem mem_sortCands (y : JobMatchCandidate)
    (l : List JobMatchCandidate) :
    y ∈ sortCands l ↔ y ∈ l := by
  induction l with
  | nil => simp [sortCands]
  | cons d ds ih => simp [sortCands, mem_insertCand, ih]

theorem pairwise_sortCands (l : List JobMatchCandidate)
    (h : l.Pairwise appliedGE) : (sortCands l).Pairwise candLE := by
  induction l with
  | nil => simp [sortCands]
  | cons d ds ih =>
      rw [List.pairwise_cons] at h
      exact pairwise_insertCand d (sortCands ds) (ih h.2)
        (fun e he => h.1 e ((mem_sortCands e ds).mp he))

/-- C9: when the job rows arrive ordered by `applied_at` descending (the
order `get_recent_job_applications` guarantees via its SQL `ORDER BY
applied_at DESC`), the candidate list returned by `find_matches` is
ordered by descending aggregate score, and any two equal-scored
candidates keep the more recently applied record first (Python's sort is
stable). -/
theorem C9_candidates_sorted (email : EmailRec) (jobs : List JobRec)
    (h : jobs.Pairwise jobAppliedGE) :
    (findMatches email jobs).Pairwise candLE := by
  rw [findMatches]
  apply pairwise_sortCands
  rw [List.pairwise_filterMap]
  apply h.imp
  intro a b hab c hc d hd
  split at hc
  · split at hd
    · simp only [Option.mem_def, Option.some.injEq] at hc hd
      subst hc
      subst hd
      exact hab
    · simp at hd
  · simp at hc

/-- C9 witness: two concrete jobs sharing a company name, ordered by
descending application date; the resulting candidate list satisfies the
ordering property. -/
theorem C9_witness :
    let j1 : JobRec :=
      { job_id := 1
        company_name := some "acme"
        position_title := none
        company_domain := none
        applied_at := some 10
        effort_level := none }
    let j2 : JobRec :=
      { job_id := 2
        company_name := some "acme"
        position_title := none
        company_domain := none
        applied_at := some 5
        effort_level := none }
    let e : EmailRec :=
      { gmail_id := "g9"
        subject := some "acme"
        sender_email := none
        body_text := none
        body_html := none
        received_at := 0 }
    (findMatches e [j1, j2]).Pairwise candLE := by
  intro j1 j2 e
  exact C9_candidates_sorted e [j1, j2] (by decide)

end Saturnus
